import Mathlib

/-!
Verification development for the bill-photo information-extraction pipeline
of the repository (ocrService: field extractors, confidence gate, scan
orchestrator).  The TypeScript sources are shallowly embedded: regular
expressions become explicit pattern values interpreted by a small
backtracking matcher with JavaScript's leftmost-greedy semantics, JS
numbers become rationals (NaN is `Option.none`), JS `string | null`
together with truthiness tests becomes `Option String` plus an emptiness
check, and the scan orchestrator becomes a total function over an
environment describing the outcomes of its external collaborators.
-/

/-! ## Basic JS-style helpers -/

/-- Checks that the first list is a prefix of the second (used by the
literal case of the matcher and by `jsIncludes`). -/
def startsWithL : List Char → List Char → Bool
  | [], _ => true
  | _ :: _, [] => false
  | a :: as, b :: bs => a == b && startsWithL as bs

/-- JS `String.prototype.includes`: substring containment (empty needle
is always contained). -/
def jsIncludes (hay needle : List Char) : Bool :=
  match hay with
  | [] => startsWithL needle []
  | c :: t => startsWithL needle (c :: t) || jsIncludes t needle

/-- JS `String.prototype.toLowerCase`, modelled per character with
`Char.toLower` (ASCII letters; the Turkish keyword data in the source is
already lower case, so this matches the source's use sites). -/
def jsToLower (s : String) : String := ⟨s.data.map Char.toLower⟩

/-- Numeric value of a run of decimal digit characters. -/
def digitsToNat (ds : List Char) : Nat :=
  ds.foldl (fun n c => 10 * n + (c.toNat - '0'.toNat)) 0

/-- JS `parseFloat` on a character list: skip leading whitespace, optional
sign, longest decimal-digit run, optional fraction after `.`, optional
exponent; the rest of the string is ignored.  `none` models `NaN` (no
digits at all).  The value is assembled with `mkRat` over integer
arithmetic: mantissa `i.f` with exponent `e` is `(i*10^|f| + f) * 10^e /
10^|f|`.  Nonfinite JS values (`Infinity`) are outside the rational model
and not produced by the inputs of this code base. -/
def jsParseFloatL (s : List Char) : Option ℚ :=
  let s1 := s.dropWhile Char.isWhitespace
  let signNeg := match s1 with
    | '-' :: _ => true
    | _ => false
  let s2 := match s1 with
    | '-' :: t => t
    | '+' :: t => t
    | _ => s1
  let intDs := s2.takeWhile Char.isDigit
  let s3 := s2.drop intDs.length
  let fracDs := match s3 with
    | '.' :: t => t.takeWhile Char.isDigit
    | _ => []
  let s4 := match s3 with
    | '.' :: t => t.drop (t.takeWhile Char.isDigit).length
    | _ => s3
  if intDs.isEmpty && fracDs.isEmpty then none
  else
    let n : Nat := digitsToNat intDs * 10 ^ fracDs.length + digitsToNat fracDs
    let den : Nat := 10 ^ fracDs.length
    let expo : Int :=
      match s4 with
      | 'e' :: t | 'E' :: t =>
        let eSignNeg := match t with | '-' :: _ => true | _ => false
        let t2 := match t with | '-' :: u => u | '+' :: u => u | _ => t
        let eDs := t2.takeWhile Char.isDigit
        if eDs.isEmpty then 0
        else if eSignNeg then -(digitsToNat eDs : Int) else (digitsToNat eDs : Int)
      | _ => 0
    let num : Int := if signNeg then -(n : Int) else (n : Int)
    some (if 0 ≤ expo then mkRat (num * ((10 ^ expo.toNat : Nat) : Int)) den
          else mkRat num (den * 10 ^ (-expo).toNat))

/-- JS `parseFloat` on a string. -/
def jsParseFloat (s : String) : Option ℚ := jsParseFloatL s.data

/-- JS `parseInt` (decimal) on a character list: skip whitespace, optional
sign, longest digit run; `none` models `NaN`. -/
def jsParseIntL (s : List Char) : Option Int :=
  let s1 := s.dropWhile Char.isWhitespace
  let signNeg := match s1 with | '-' :: _ => true | _ => false
  let s2 := match s1 with | '-' :: t => t | '+' :: t => t | _ => s1
  let ds := s2.takeWhile Char.isDigit
  if ds.isEmpty then none
  else some (if signNeg then -(digitsToNat ds : Int) else (digitsToNat ds : Int))

/-! ## A small matcher for the source's regular expressions

The regex literals of `ocrService.ts` are embedded as explicit pattern
values.  `mtch` enumerates, in JavaScript's backtracking priority order
(alternation left first, quantifiers greedy), every suffix that can
remain after the expression matches a prefix of the input; the head of
the list is the remainder JS would choose. -/

inductive RE where
  | eps
  | cls (p : Char → Bool)
  | lit (l : List Char)
  | cat (a b : RE)
  | alt (a b : RE)
  | star (a : RE)

/-- Greedy iteration of a star body: try one more iteration first, then
stop.  `fuel` bounds the number of iterations; callers pass the input
length plus one, which is never the binding constraint because every
starred subexpression in the embedded patterns consumes at least one
character per iteration. -/
def starIter (f : List Char → List (List Char)) : Nat → List Char → List (List Char)
  | 0, s => [s]
  | n + 1, s => ((f s).flatMap (starIter f n)) ++ [s]

/-- All remainders after matching a prefix of `s`, in JS backtracking
priority order. -/
def mtch : RE → List Char → List (List Char)
  | .eps, s => [s]
  | .cls _, [] => []
  | .cls p, c :: t => if p c then [t] else []
  | .lit l, s => if startsWithL l s then [s.drop l.length] else []
  | .cat a b, s => (mtch a s).flatMap (fun r => mtch b r)
  | .alt a b, s => mtch a s ++ mtch b s
  | .star a, s => starIter (mtch a) (s.length + 1) s

/-- `r?` (greedy option). -/
def REopt (r : RE) : RE := .alt r .eps

/-- `r+` (greedy one-or-more). -/
def REplus (r : RE) : RE := .cat r (.star r)

/-- Literal pattern from a string. -/
def REl (s : String) : RE := .lit s.data

/-- Ordered alternation of string literals (JS `(?:a|b|...)`). -/
def REaltList : List String → RE
  | [] => .eps
  | [s] => REl s
  | s :: t => .alt (REl s) (REaltList t)

/-- A source pattern, split at its single capture group:
`pre ( cap ) post`. -/
structure Pat where
  pre : RE
  cap : RE
  post : RE

/-- First `some` produced by `f` along the list (JS first-match loops). -/
def listFirstSome : List α → (α → Option β) → Option β
  | [], _ => none
  | a :: t, f => match f a with
    | some b => some b
    | none => listFirstSome t f

/-- Match a pattern at the start of `s`.  Enumerates the ways `pre`, then
`cap`, then `post` can match, in JS backtracking priority order, and
returns the first complete success as (captured characters, remainder
after the whole match). -/
def matchCapAt (p : Pat) (s : List Char) : Option (List Char × List Char) :=
  listFirstSome (mtch p.pre s) (fun r1 =>
    listFirstSome (mtch p.cap r1) (fun r2 =>
      match mtch p.post r2 with
      | [] => none
      | r3 :: _ => some (r1.take (r1.length - r2.length), r3)))

/-- Scan loop of JS `matchAll` (and of `match` with a `/g` regex): find
the leftmost match, record it, continue after its end.  Returns
(full match, capture group 1) pairs in order.  `fuel` is the input length
plus one; every embedded pattern consumes at least one character, so the
fuel never runs out before the scan completes. -/
def scanAux : Nat → Pat → List Char → List (List Char × List Char)
  | 0, _, _ => []
  | fuel + 1, p, s =>
    match matchCapAt p s with
    | some (cap, rest) => (s.take (s.length - rest.length), cap) :: scanAux fuel p rest
    | none =>
      match s with
      | [] => []
      | _ :: t => scanAux fuel p t

/-- All matches of a pattern in `s`, leftmost first, as
(full match, capture group 1) pairs. -/
def scanMatches (p : Pat) (s : List Char) : List (List Char × List Char) :=
  scanAux (s.length + 1) p s

/-! ## Amount extraction (`parseAmount`, frontend `ocrService.ts`)

Source patterns (`AMOUNT_PATTERNS`, lines 32-39):
```
/(?:toplam|tutar|ödenmesi gereken|ödenecek tutar|son ödeme tutarı|borç tutarı|tahakkuk|net tutar|genel toplam)[:\s]*[₺]?\s*([0-9]+[.,][0-9]{2})/gi
/(?:toplam|tutar|ödenmesi gereken|ödenecek)[:\s]*([0-9]+[.,][0-9]{2})\s*(?:tl|₺)/gi
/([0-9]+[.,][0-9]{2})\s*(?:tl|₺)/gi
/(?:tl|₺)\s*([0-9]+[.,][0-9]{2})/gi
/(?:toplam|tutar)[:\s]*₺?\s*([0-9]+[.,][0-9]{2})/gi
/([0-9]{1,3}(?:\.[0-9]{3})*,[0-9]{2})/g
```
-/

/-- Digit character class `[0-9]`. -/
def REdigit : RE := .cls Char.isDigit

/-- Whitespace class `\s`. -/
def REws : RE := .cls Char.isWhitespace

/-- `[:\s]*`. -/
def REcolonWs : RE := .star (.cls (fun c => c == ':' || c.isWhitespace))

/-- `[.,]`. -/
def REsep : RE := .cls (fun c => c == '.' || c == ',')

/-- `(?:tl|₺)`. -/
def REtl : RE := .alt (REl "tl") (REl "₺")

/-- The shared capture `([0-9]+[.,][0-9]` followed by exactly two digits
and a closing parenthesis in the source. -/
def REamountCap : RE := .cat (REplus REdigit) (.cat REsep (.cat REdigit REdigit))

/-- `x` repeated one to three times, greedy. -/
def RErep13 (r : RE) : RE := .cat r (REopt (.cat r (REopt r)))

/-- Label vocabulary of the first amount pattern. -/
def amountLabels1 : RE :=
  REaltList ["toplam", "tutar", "ödenmesi gereken", "ödenecek tutar",
             "son ödeme tutarı", "borç tutarı", "tahakkuk", "net tutar", "genel toplam"]

/-- Label vocabulary of the second amount pattern. -/
def amountLabels2 : RE := REaltList ["toplam", "tutar", "ödenmesi gereken", "ödenecek"]

/-- Label vocabulary of the fifth amount pattern. -/
def amountLabels5 : RE := REaltList ["toplam", "tutar"]

/-- `AMOUNT_PATTERNS` (source lines 32-39), in source order, each split
at its capture group. -/
def AMOUNT_PATTERNS : List Pat :=
  [ ⟨.cat amountLabels1 (.cat REcolonWs (.cat (REopt (REl "₺")) (.star REws))), REamountCap, .eps⟩
  , ⟨.cat amountLabels2 REcolonWs, REamountCap, .cat (.star REws) REtl⟩
  , ⟨.eps, REamountCap, .cat (.star REws) REtl⟩
  , ⟨.cat REtl (.star REws), REamountCap, .eps⟩
  , ⟨.cat amountLabels5 (.cat REcolonWs (.cat (REopt (REl "₺")) (.star REws))), REamountCap, .eps⟩
  , ⟨.eps,
     .cat (RErep13 REdigit)
          (.cat (.star (.cat (REl ".") (.cat REdigit (.cat REdigit REdigit))))
                (.cat (REl ",") (.cat REdigit REdigit))),
     .eps⟩ ]

/-- Replace the first occurrence of a character (JS
`String.prototype.replace` with a string pattern). -/
def replaceFirst (tgt repl : Char) : List Char → List Char
  | [] => []
  | c :: t => if c == tgt then repl :: t else c :: replaceFirst tgt repl t

/-- Normalisation of one raw amount match (source lines 60-70): strip
whitespace; if both `.` and `,` occur, drop every `.` (thousands
separator) and turn the first `,` into `.`; if only `,` occurs, turn the
first `,` into `.`. -/
def normalizeAmount (cs : List Char) : List Char :=
  let a := cs.filter (fun c => !c.isWhitespace)
  if a.contains '.' && a.contains ',' then
    replaceFirst ',' '.' (a.filter (fun c => !(c == '.')))
  else if a.contains ',' then
    replaceFirst ',' '.' a
  else a

/-- Validation of one candidate (source lines 72-76): parse the
normalised text with `parseFloat`; keep the value only when it is a
number strictly between 1 and 50000.  The source returns
`numValue.toFixed(2)`; the model returns the numeric value itself (every
accepted candidate has at most two fractional digits). -/
def tryCandidate (cap : List Char) : Option ℚ :=
  match jsParseFloatL (normalizeAmount cap) with
  | some v => if 1 < v ∧ v < 50000 then some v else none
  | none => none

/-- `parseAmount` (source lines 51-81): lower-case the text, then for each
pattern in order, for each match in order, return the first candidate
that survives normalisation and the range check. -/
def parseAmount (text : String) : Option ℚ :=
  listFirstSome AMOUNT_PATTERNS (fun p =>
    listFirstSome ((scanMatches p ((jsToLower text).data)).map Prod.snd) tryCandidate)

/-! ## Due-date extraction (`parseDueDate`, frontend `ocrService.ts`)

Source patterns (`DATE_PATTERNS`, lines 42-46):
```
/(?:son ödeme tarihi|son ödeme|vade tarihi|vade|ödeme tarihi|s\.ö\.t)[:\s]*(\d{1,2}[-./]\d{1,2}[-./]\d{2,4})/gi
(the separator class is written here with the dash first; the source
orders it dot, slash, dash)
/(\d{2}[.]\d{2}[.]\d{4})/g
/(\d{2}[/]\d{2}[/]\d{4})/g
```
The source reads the match with `normalizedText.match(pattern)`.  Because
every pattern carries the `g` flag, JS `String.prototype.match` returns
the array of full match strings (capture groups are not exposed), so the
source's `match[1]` is the second full match, not capture group 1.  The
model reproduces exactly that. -/

/-- The date separator class: dot, slash or dash. -/
def REdateSep : RE := .cls (fun c => c == '.' || c == '/' || c == '-')

/-- `x` repeated one to two times, greedy. -/
def RErep12 (r : RE) : RE := .cat r (REopt r)

/-- `x` repeated two to four times, greedy. -/
def RErep24 (r : RE) : RE := .cat r (.cat r (REopt (.cat r (REopt r))))

/-- Label vocabulary of the first date pattern. -/
def dateLabels : RE :=
  REaltList ["son ödeme tarihi", "son ödeme", "vade tarihi", "vade", "ödeme tarihi", "s.ö.t"]

/-- `DATE_PATTERNS` (source lines 42-46), in source order, each split at
its capture group. -/
def DATE_PATTERNS : List Pat :=
  [ ⟨.cat dateLabels REcolonWs,
     .cat (RErep12 REdigit) (.cat REdateSep (.cat (RErep12 REdigit) (.cat REdateSep (RErep24 REdigit)))),
     .eps⟩
  , ⟨.eps, .cat REdigit (.cat REdigit (.cat (REl ".") (.cat REdigit (.cat REdigit
      (.cat (REl ".") (.cat REdigit (.cat REdigit (.cat REdigit REdigit)))))))), .eps⟩
  , ⟨.eps, .cat REdigit (.cat REdigit (.cat (REl "/") (.cat REdigit (.cat REdigit
      (.cat (REl "/") (.cat REdigit (.cat REdigit (.cat REdigit REdigit)))))))), .eps⟩ ]

/-- JS `split` of the source (line 95) on the regex class dot, slash,
dash: split on every such character, keeping
empty pieces. -/
def splitOnSeps : List Char → List (List Char)
  | [] => [[]]
  | c :: t =>
    if c == '.' || c == '/' || c == '-' then [] :: splitOnSeps t
    else
      match splitOnSeps t with
      | h :: r => (c :: h) :: r
      | [] => [[c]]

/-- Two-digit year expansion (source lines 103-105): `if (year < 100)
year += 2000`.  A `NaN` year stays `NaN` (the JS comparison is false). -/
def adj2000 : Option Int → Option Int
  | some n => if n < 100 then some (n + 2000) else some n
  | none => none

/-- The date-part validation of source line 108:
`day >= 1 && day <= 31 && month >= 1 && month <= 12 && year >= 2024 && year <= 2030`,
where a `NaN` part (`none`) fails its comparisons. -/
def validDateParts (d m y : Option Int) : Bool :=
  match d, m, y with
  | some d, some m, some y =>
      decide (1 ≤ d) && decide (d ≤ 31) && decide (1 ≤ m) && decide (m ≤ 12) &&
      decide (2024 ≤ y) && decide (y ≤ 2030)
  | _, _, _ => false

/-- `padStart(2, '0')` on the decimal rendering of a number. -/
def pad2 (n : Int) : String :=
  let s := toString n
  if s.length < 2 then "0" ++ s else s

/-- ISO assembly of source line 109: `year-month-day` with 2-padded month
and day. -/
def isoOf (y m d : Int) : String :=
  toString y ++ "-" ++ pad2 m ++ "-" ++ pad2 d

/-- One iteration of the pattern loop of `parseDueDate` (source lines
89-113): take the result of `String.match` with the `/g` pattern (the
list of full matches), require `match[1]` (the second full match) to
exist, split it on dot, slash and dash, require exactly three parts,
parse them with
`parseInt`, expand a two-digit year, validate, and emit the ISO string;
any failure falls through to the next pattern. -/
def tryDatePattern (p : Pat) (s : List Char) : Option String :=
  match (scanMatches p s).map Prod.fst with
  | _ :: m1 :: _ =>
    match splitOnSeps m1 with
    | [p0, p1, p2] =>
      let day := jsParseIntL p0
      let month := jsParseIntL p1
      let year := adj2000 (jsParseIntL p2)
      if validDateParts day month year then
        some (isoOf (year.getD 0) (month.getD 0) (day.getD 0))
      else none
    | _ => none
  | _ => none

/-- `parseDueDate` (source lines 86-116): lower-case the text, then try
each date pattern in order with `tryDatePattern`. -/
def parseDueDate (text : String) : Option String :=
  listFirstSome DATE_PATTERNS (fun p => tryDatePattern p ((jsToLower text).data))

/-! ## Category detection (`parseCategory`, frontend `ocrService.ts`) -/

/-- `CATEGORY_KEYWORDS` (source lines 20-29). -/
def CATEGORY_KEYWORDS : String → List String
  | "electricity" => ["elektrik", "enerji", "aydem", "enerjisa", "tedaş", "başkent", "bedaş",
      "gediz", "toroslar", "dicle", "vangölü", "akedaş", "akdeniz", "yeşilırmak", "çoruh",
      "fırat", "kayseri", "meram", "osmangazi", "sakarya", "trakya", "uludağ"]
  | "water" => ["su", "iski", "aski", "izsu", "buski", "deski", "meski", "kaski", "koski",
      "satso", "asat", "muski"]
  | "gas" => ["doğalgaz", "gaz", "igdaş", "egegaz", "başkentgaz", "izmirgaz", "bursagaz",
      "kayserigaz", "enerya", "agdaş", "palgaz", "samgaz", "akmercan", "armadaş", "çinigaz",
      "netgaz", "ovagaz", "trakya gaz"]
  | "internet" => ["internet", "ttnet", "türk telekom", "turknet", "superonline",
      "vodafone net", "kablonet", "d-smart", "millenicom", "pttcell"]
  | "phone" => ["telefon", "gsm", "mobil", "cep", "turkcell", "vodafone", "türk telekom",
      "bimcell", "pttcell", "hat", "kontör"]
  | "subscriptions" => ["netflix", "spotify", "youtube", "amazon", "disney", "exxen",
      "blu tv", "gain", "abonelik", "premium", "apple", "google play", "xbox",
      "playstation", "nintendo"]
  | "rent" => ["kira", "konut", "daire", "ev", "apartman"]
  | "market" => ["market", "migros", "a101", "bim", "şok", "carrefour", "metro", "file",
      "macro", "happy center"]
  | _ => []

/-- The fixed priority order of source line 125. -/
def categoryOrder : List String :=
  ["electricity", "water", "gas", "internet", "phone", "subscriptions", "rent", "market"]

/-- The inner keyword loop of `parseCategory` (source lines 129-133):
does any keyword of the category occur in the lower-cased text? -/
def categoryHit (c : String) (lowerText : List Char) : Bool :=
  (CATEGORY_KEYWORDS c).any (fun k => jsIncludes lowerText ((jsToLower k).data))

/-- The outer category loop of `parseCategory` (source lines 127-134):
return the first category of the priority order with a keyword hit. -/
def parseCategoryGo : List String → List Char → Option String
  | [], _ => none
  | c :: rest, t => if categoryHit c t then some c else parseCategoryGo rest t

/-- `parseCategory` (source lines 121-136). -/
def parseCategory (text : String) : Option String :=
  parseCategoryGo categoryOrder ((jsToLower text).data)

/-! ## The confidence-gated scan orchestrator (`scanBill`, part_007)

The gated variant of `scanBill` (part_007, lines 78-174).  The external
collaborators (image picker and the backend OCR call) are modelled by an
environment describing their outcome; everything the function itself does
with that outcome is embedded.  The whole source body sits in a
`try`/`catch` whose handlers return a `BillScanResult`, so the embedding
is a total function: no exception escapes to the caller. -/

/-- `HIGH_CONFIDENCE = 0.70` (part_007 line 11). -/
def HIGH_CONFIDENCE : ℚ := mkRat 70 100

/-- `LOW_CONFIDENCE = 0.40` (part_007 line 12). -/
def LOW_CONFIDENCE : ℚ := mkRat 40 100

/-- `ParsedField` (part_007 lines 14-18); `value : string | null` is an
`Option String`. -/
structure ParsedField where
  value : Option String
  confidence : ℚ
  evidence : List String

/-- The `parsed` payload of `OcrResult` (part_007 lines 20-28). -/
structure OcrParsed where
  biller_name : ParsedField
  due_date : ParsedField
  amount_due : ParsedField
  currency : ParsedField

/-- `BillScanResult` (part_007 lines 30-39); optional fields default to
absent as in the source's sparse object literals. -/
structure BillScanResult where
  success : Bool
  billerName : Option String := none
  dueDate : Option String := none
  amount : Option ℚ := none
  currency : Option String := none
  rawText : Option String := none
  warnings : List String
  error : Option String := none

/-- JS truthiness of a `string | null` value: `null`, `undefined` and the
empty string are falsy. -/
def strTruthy : Option String → Bool
  | none => false
  | some s => decide (s ≠ "")

/-- JS truthiness of a number-or-undefined: `undefined`, `NaN` (our
`none`) and `0` are falsy. -/
def ratTruthy : Option ℚ → Bool
  | none => false
  | some v => decide (v ≠ 0)

/-- The gate condition shared by the three scored fields (part_007 lines
119, 127 and 135): `field.value && field.confidence >= LOW_CONFIDENCE`. -/
def fieldAccepted (f : ParsedField) : Bool :=
  strTruthy f.value && decide (LOW_CONFIDENCE ≤ f.confidence)

/-- The warning condition shared by the biller and due-date gates
(part_007 lines 121 and 129): inside the gate,
`field.confidence < HIGH_CONFIDENCE`. -/
def fieldMedium (f : ParsedField) : Bool :=
  fieldAccepted f && decide (f.confidence < HIGH_CONFIDENCE)

/-- Gate condition for the biller name (part_007 line 119):
`parsed.biller_name.value && parsed.biller_name.confidence >= LOW_CONFIDENCE`. -/
def billerAccepted (p : OcrParsed) : Bool := fieldAccepted p.biller_name

/-- Gate condition for the due date (part_007 line 127). -/
def dateAccepted (p : OcrParsed) : Bool := fieldAccepted p.due_date

/-- Gate condition for the amount (part_007 line 135). -/
def amountAccepted (p : OcrParsed) : Bool := fieldAccepted p.amount_due

/-- The `amount` local of part_007 lines 136-137: inside the gate,
`parseFloat` of the value, with `NaN` demoted to `undefined`. -/
def amountValue (p : OcrParsed) : Option ℚ :=
  if amountAccepted p then jsParseFloat (p.amount_due.value.getD "") else none

/-- The biller warning string of part_007 line 122. -/
def billerWarning (name : String) : String :=
  "Kurum adı kontrol edin: \"" ++ name ++ "\""

/-- The due-date warning string of part_007 line 130. -/
def dateWarning : String := "Son ödeme tarihini kontrol edin"

/-- The amount warning string of part_007 line 139. -/
def amountWarning : String := "Tutarı kontrol edin"

/-- Warning push condition for the biller (part_007 line 121). -/
def billerMedium (p : OcrParsed) : Bool := fieldMedium p.biller_name

/-- Warning push condition for the due date (part_007 line 129). -/
def dateMedium (p : OcrParsed) : Bool := fieldMedium p.due_date

/-- Warning push condition for the amount (part_007 line 138):
`amount && confidence < HIGH_CONFIDENCE` — the parsed amount must be
truthy (neither `undefined` nor `0`). -/
def amountMedium (p : OcrParsed) : Bool :=
  ratTruthy (amountValue p) && decide (p.amount_due.confidence < HIGH_CONFIDENCE)

/-- The `warnings` array after the three gates ran (part_007 lines
113-141): pushes happen in source order — biller, then due date, then
amount. -/
def scanWarnings (p : OcrParsed) : List String :=
  (if billerMedium p then [billerWarning (p.biller_name.value.getD "")] else [])
    ++ (if dateMedium p then [dateWarning] else [])
    ++ (if amountMedium p then [amountWarning] else [])

/-- `hasData` (part_007 line 148): `billerName || dueDate || amount` over
the gated locals (the string locals are truthy exactly when their gate
fired; the amount local is additionally falsy at `0`). -/
def hasData (p : OcrParsed) : Bool :=
  billerAccepted p || dateAccepted p || ratTruthy (amountValue p)

/-- The success-path result assembly of `scanBill` (part_007 lines
112-159): gate the three scored fields, copy the currency on mere
truthiness, truncate the raw text to 500 characters, and derive the soft
`error` message from `hasData`. -/
def processParsed (rawText : String) (p : OcrParsed) : BillScanResult :=
  { success := true
  , billerName := if billerAccepted p then p.biller_name.value else none
  , dueDate := if dateAccepted p then p.due_date.value else none
  , amount := amountValue p
  , currency := if strTruthy p.currency.value then p.currency.value else none
  , rawText := some (rawText.take 500)
  , warnings := scanWarnings p
  , error := if hasData p then none
             else some "Bilgiler tam çıkarılamadı. Lütfen manuel doldurun." }

/-- Outcome of the backend OCR call (part_007 lines 92-103): a response,
or an error caught by the handlers of lines 161-173 (HTTP 401, axios
`ECONNABORTED` timeout, anything else). -/
inductive OcrCallOutcome where
  | ok (rawText : String) (parsed : OcrParsed)
  | errAuth
  | errTimeout
  | errOther

/-- Environment of one `scanBill` invocation: either the image picker
yielded nothing (cancelled, denied, or compression failed — line 84), or
it yielded an image and the OCR call had some outcome. -/
inductive ScanEnv where
  | pickFailed
  | picked (outcome : OcrCallOutcome)

/-- `scanBill` (part_007 lines 78-174) as a total function of the
environment.  Every failure branch returns the source's literal result
object; the success path defers to `processParsed`. -/
def scanBill : ScanEnv → BillScanResult
  | .pickFailed =>
      { success := false, warnings := [], error := some "Fotoğraf seçilemedi veya izin verilmedi." }
  | .picked (.ok rawText parsed) =>
      if rawText.length < 10 then
        { success := false, warnings := [],
          error := some "Faturada metin bulunamadı. Daha net fotoğraf çekin." }
      else processParsed rawText parsed
  | .picked .errAuth =>
      { success := false, warnings := [], error := some "Yetkilendirme hatası." }
  | .picked .errTimeout =>
      { success := false, warnings := [], error := some "İşlem zaman aşımına uğradı." }
  | .picked .errOther =>
      { success := false, warnings := [], error := some "Tarama başarısız. Tekrar deneyin." }

/-- The terminal-failure states of the orchestrator: picker failure, OCR
call failure (auth, timeout, other), or recognized text below the
10-character minimum (part_007 lines 84-110 and 161-173). -/
def terminalFailure : ScanEnv → Bool
  | .pickFailed => true
  | .picked (.ok rawText _) => decide (rawText.length < 10)
  | .picked .errAuth => true
  | .picked .errTimeout => true
  | .picked .errOther => true

/-- A parsed payload whose three scored fields all sit in the medium
confidence band (0.50), with no currency candidate. -/
def allMediumParsed : OcrParsed :=
  ⟨⟨some "Aydem", mkRat 1 2, []⟩, ⟨some "12.06.2025", mkRat 1 2, []⟩,
   ⟨some "350.75", mkRat 1 2, []⟩, ⟨none, 0, []⟩⟩

/-- A parsed payload whose only candidate is an amount string that
`parseFloat` cannot parse, reported at high confidence (0.90). -/
def nanAmountParsed : OcrParsed :=
  ⟨⟨none, 0, []⟩, ⟨none, 0, []⟩, ⟨some "abc", mkRat 9 10, []⟩, ⟨none, 0, []⟩⟩

/-- A parsed payload whose only candidate is the amount string "0" at
high confidence (0.90). -/
def zeroAmountParsed : OcrParsed :=
  ⟨⟨none, 0, []⟩, ⟨none, 0, []⟩, ⟨some "0", mkRat 9 10, []⟩, ⟨none, 0, []⟩⟩

/-- A parsed payload whose only candidate is an empty-string currency at
full confidence. -/
def emptyCurrencyParsed : OcrParsed :=
  ⟨⟨none, 0, []⟩, ⟨none, 0, []⟩, ⟨none, 0, []⟩, ⟨some "", 1, []⟩⟩

/-! ## Helper lemmas -/

theorem data_append (s t : String) : (s ++ t).data = s.data ++ t.data := by
  cases s; cases t; rfl

theorem billerWarning_head (v : String) : (billerWarning v).data.head? = some 'K' := by
  cases v; rfl

theorem billerWarning_ne_dateWarning (v : String) : billerWarning v ≠ dateWarning := by
  intro h
  have h1 := billerWarning_head v
  rw [h] at h1
  exact absurd h1 (by decide)

theorem billerWarning_ne_amountWarning (v : String) : billerWarning v ≠ amountWarning := by
  intro h
  have h1 := billerWarning_head v
  rw [h] at h1
  exact absurd h1 (by decide)

theorem dateWarning_ne_billerWarning (v : String) : dateWarning ≠ billerWarning v :=
  fun h => billerWarning_ne_dateWarning v h.symm

theorem amountWarning_ne_billerWarning (v : String) : amountWarning ≠ billerWarning v :=
  fun h => billerWarning_ne_amountWarning v h.symm

theorem dateWarning_ne_amountWarning : dateWarning ≠ amountWarning := by decide

theorem amountWarning_ne_dateWarning : amountWarning ≠ dateWarning := by decide

theorem scanBill_ok (rt : String) (p : OcrParsed) (hlen : 10 ≤ rt.length) :
    scanBill (.picked (.ok rt p)) = processParsed rt p := by
  simp [scanBill, Nat.not_lt.mpr hlen]

theorem fieldAccepted_of (f : ParsedField) (v : String) (hv : f.value = some v)
    (hne : v ≠ "") (hc : LOW_CONFIDENCE ≤ f.confidence) : fieldAccepted f = true := by
  simp [fieldAccepted, strTruthy, hv, hne, hc]

theorem fieldAccepted_false (f : ParsedField) (hc : f.confidence < LOW_CONFIDENCE) :
    fieldAccepted f = false := by
  simp [fieldAccepted, not_le.mpr hc]

theorem fieldMedium_of (f : ParsedField) (v : String) (hv : f.value = some v)
    (hne : v ≠ "") (hlo : LOW_CONFIDENCE ≤ f.confidence)
    (hhi : f.confidence < HIGH_CONFIDENCE) : fieldMedium f = true := by
  simp [fieldMedium, fieldAccepted_of f v hv hne hlo, hhi]

theorem fieldMedium_false_high (f : ParsedField)
    (hhi : HIGH_CONFIDENCE ≤ f.confidence) : fieldMedium f = false := by
  simp [fieldMedium, not_lt.mpr hhi]

theorem fieldMedium_false_low (f : ParsedField)
    (hlo : f.confidence < LOW_CONFIDENCE) : fieldMedium f = false := by
  simp [fieldMedium, fieldAccepted_false f hlo]

theorem billerWarning_mem_iff (p : OcrParsed) (v : String)
    (hv : p.biller_name.value = some v) :
    (billerWarning v ∈ scanWarnings p) ↔ billerMedium p = true := by
  cases hb : billerMedium p <;> cases hd : dateMedium p <;> cases ha : amountMedium p <;>
    simp [scanWarnings, hb, hd, ha, hv,
      billerWarning_ne_dateWarning, billerWarning_ne_amountWarning]

theorem dateWarning_mem_iff (p : OcrParsed) :
    (dateWarning ∈ scanWarnings p) ↔ dateMedium p = true := by
  cases hb : billerMedium p <;> cases hd : dateMedium p <;> cases ha : amountMedium p <;>
    simp [scanWarnings, hb, hd, ha,
      dateWarning_ne_billerWarning, dateWarning_ne_amountWarning]

theorem amountWarning_mem_iff (p : OcrParsed) :
    (amountWarning ∈ scanWarnings p) ↔ amountMedium p = true := by
  cases hb : billerMedium p <;> cases hd : dateMedium p <;> cases ha : amountMedium p <;>
    simp [scanWarnings, hb, hd, ha,
      amountWarning_ne_billerWarning, amountWarning_ne_dateWarning]

theorem listFirstSome_eq_some {α β : Type} {l : List α} {f : α → Option β} {b : β}
    (h : listFirstSome l f = some b) : ∃ a, a ∈ l ∧ f a = some b := by
  induction l with
  | nil => simp [listFirstSome] at h
  | cons a t ih =>
    simp only [listFirstSome] at h
    cases hfa : f a with
    | some c =>
      rw [hfa] at h
      exact ⟨a, by simp, by rw [hfa, Option.some_inj.mp h]⟩
    | none =>
      rw [hfa] at h
      obtain ⟨x, hx, hfx⟩ := ih h
      exact ⟨x, by simp [hx], hfx⟩

theorem tryCandidate_bounds {c : List Char} {v : ℚ} (h : tryCandidate c = some v) :
    1 < v ∧ v < 50000 := by
  unfold tryCandidate at h
  split at h
  next q hq =>
    split at h
    next hcond => cases h; exact hcond
    next hcond => cases h
  next hq => cases h

theorem parseCategoryGo_eq_find (l : List String) (t : List Char) :
    parseCategoryGo l t = l.find? (fun c => categoryHit c t) := by
  induction l with
  | nil => rfl
  | cons c rest ih =>
    cases h : categoryHit c t <;> simp [parseCategoryGo, List.find?, h, ih]

theorem find?_isSome_eq_any (l : List String) (f : String → Bool) :
    (l.find? f).isSome = l.any f := by
  induction l with
  | nil => rfl
  | cons c rest ih =>
    cases h : f c <;> simp [List.find?, h, ih]

/-! ## Claims -/

/-- C2 (code bug witness): for the labeled Turkish-format amount
`"toplam: 1.234,56 TL"` the claim states that `parseAmount` returns
`1234.56` after stripping the thousands dot and converting the decimal
comma.  The code's labeled pattern captures `[0-9]+[.,][0-9]` with
exactly two trailing digits, so the capture stops at `1.23`; the
extractor returns `1.23`, not `1234.56`. -/
theorem c2_labeled_thousands_eval :
    parseAmount "toplam: 1.234,56 TL" = some (mkRat 123 100) ∧
    (mkRat 123 100 : ℚ) ≠ mkRat 123456 100 := by decide

/-- C3 (counterexample): the claim states the amount range check accepts
exactly the interval (0, 50000).  The code checks `numValue > 1`, so the
well-formed labeled amount `"tutar: 0,50 tl"`, whose value 0.50 lies in
(0, 50000), yields no amount. -/
theorem c3_counterexample :
    parseAmount "tutar: 0,50 tl" = none ∧
    ((0 : ℚ) < mkRat 50 100 ∧ (mkRat 50 100 : ℚ) < 50000) := by decide

/-- C3 (amended): the amount extractor returns a parsed value `v` only
when `1 < v < 50000`, and a syntactically matched candidate whose
normalised text parses to `q` passes the range check exactly when
`1 < q < 50000`. -/
theorem c3_range_amended :
    (∀ text v, parseAmount text = some v → 1 < v ∧ v < 50000) ∧
    (∀ cap q, jsParseFloatL (normalizeAmount cap) = some q →
      (tryCandidate cap = some q ↔ (1 < q ∧ q < 50000))) := by
  constructor
  · intro text v h
    unfold parseAmount at h
    obtain ⟨p, _, h2⟩ := listFirstSome_eq_some h
    obtain ⟨c, _, h3⟩ := listFirstSome_eq_some h2
    exact tryCandidate_bounds h3
  · intro cap q hq
    unfold tryCandidate
    rw [hq]
    by_cases hb : 1 < q ∧ q < 50000
    · simp [hb]
    · simp [hb]

/-- C3 (witness): the amended range theorem applied to the concrete text
`"tutar: 350,75 tl"`, whose extracted amount is 350.75. -/
theorem c3_range_witness :
    (1 : ℚ) < mkRat 35075 100 ∧ (mkRat 35075 100 : ℚ) < 50000 :=
  c3_range_amended.1 "tutar: 350,75 tl" (mkRat 35075 100) (by decide)

/-- C4 (code bug witness): the claim states that a labeled due date such
as `"son ödeme tarihi: 05.03.2025"` (and likewise a bare `"05.03.2025"`)
yields the ISO string `"2025-03-05"`.  The code calls `String.match` with
`/g` patterns, which returns the array of full matches, so its
`match[1]` is the second full match; with a single date in the text there
is no second match and the extractor returns nothing, even though the
date itself passes the day/month/year validator. -/
theorem c4_labeled_date_eval :
    parseDueDate "son ödeme tarihi: 05.03.2025" = none ∧
    parseDueDate "fatura 05.03.2025 kesim" = none ∧
    validDateParts (some 5) (some 3) (some 2025) = true := by decide

/-- C5 (counterexample): the claim states the year window is derived from
the implicit now timestamp, rejecting dates in the past relative to now
for every value of now.  The validator has no now input and accepts the
fixed window 2024-2030: the date 31.12.2024 is accepted although it lies
in the past of any now from 2025 on (for example of 2026). -/
theorem c5_counterexample :
    validDateParts (some 31) (some 12) (some 2024) = true ∧ (2024 : Int) < 2026 := by
  decide

/-- C5 (amended): the due-date validator accepts a candidate exactly when
1 ≤ day ≤ 31, 1 ≤ month ≤ 12 and 2024 ≤ year ≤ 2030 — a fixed window
independent of any now timestamp (the validator takes no such input). -/
theorem c5_validator_amended (d m y : Int) :
    validDateParts (some d) (some m) (some y) = true ↔
      (1 ≤ d ∧ d ≤ 31 ∧ 1 ≤ m ∧ m ≤ 12 ∧ 2024 ≤ y ∧ y ≤ 2030) := by
  simp [validDateParts, and_assoc]

/-- C8 (confirmed): every terminal failure of the orchestrator — picker
cancelled or denied, OCR call failing with auth rejection, timeout or any
other error, or recognized text shorter than 10 characters — produces
`success = false`, an error message, and no populated field.  `scanBill`
is a total function into `BillScanResult` (the source wraps its whole
body in a catch-all), so no exception escapes to the caller. -/
theorem c8_terminal_failures (env : ScanEnv) (h : terminalFailure env = true) :
    (scanBill env).success = false ∧
    (scanBill env).billerName = none ∧
    (scanBill env).dueDate = none ∧
    (scanBill env).amount = none ∧
    (scanBill env).currency = none ∧
    (scanBill env).error.isSome = true := by
  cases env with
  | pickFailed => exact ⟨rfl, rfl, rfl, rfl, rfl, rfl⟩
  | picked o =>
    cases o with
    | ok rt p =>
      have hlt : rt.length < 10 := by simpa [terminalFailure] using h
      simp [scanBill, hlt]
    | errAuth => exact ⟨rfl, rfl, rfl, rfl, rfl, rfl⟩
    | errTimeout => exact ⟨rfl, rfl, rfl, rfl, rfl, rfl⟩
    | errOther => exact ⟨rfl, rfl, rfl, rfl, rfl, rfl⟩

/-- C8 (witness): the terminal-failure theorem at the concrete
environment where the image picker yielded nothing. -/
theorem c8_terminal_failures_witness :
    (scanBill .pickFailed).success = false ∧
    (scanBill .pickFailed).billerName = none ∧
    (scanBill .pickFailed).dueDate = none ∧
    (scanBill .pickFailed).amount = none ∧
    (scanBill .pickFailed).currency = none ∧
    (scanBill .pickFailed).error.isSome = true :=
  c8_terminal_failures .pickFailed rfl

/-- C9 (confirmed): for every input text, `parseCategory` returns the
first category of the fixed priority order electricity, water, gas,
internet, phone, subscriptions, rent, market whose keyword list has a hit
in the lower-cased text (`List.find?` over the order), and it returns
some category exactly when any category has a hit — so keyword positions
inside the text are irrelevant, only the category order decides. -/
theorem c9_category_priority (text : String) :
    parseCategory text =
      categoryOrder.find? (fun c => categoryHit c ((jsToLower text).data)) ∧
    (parseCategory text).isSome =
      categoryOrder.any (fun c => categoryHit c ((jsToLower text).data)) := by
  constructor
  · exact parseCategoryGo_eq_find categoryOrder _
  · rw [parseCategory, parseCategoryGo_eq_find]
    exact find?_isSome_eq_any _ _

/-- C1 (counterexample): the claim states that every field with a
non-null candidate and confidence at least 0.70 is put in the result.
For the amount field the code additionally runs `parseFloat` on the
candidate and drops a `NaN`: with candidate `"abc"` at confidence 0.90
the amount is absent from the result (and no warning is emitted). -/
theorem c1_counterexample :
    nanAmountParsed.amount_due.value = some "abc" ∧
    HIGH_CONFIDENCE ≤ nanAmountParsed.amount_due.confidence ∧
    (scanBill (.picked (.ok "0123456789" nanAmountParsed))).amount = none ∧
    (scanBill (.picked (.ok "0123456789" nanAmountParsed))).warnings = [] := by decide

/-- C1 (amended): for the biller name and due date, a non-null, non-empty
candidate is gated in exactly the claimed three ways (at least 0.70:
present without its warning; in [0.40, 0.70): present with its warning;
below 0.40: absent and silent).  For the amount the same bands hold
provided the candidate parses to a number: a candidate whose `parseFloat`
is `NaN` is absent and silent at every confidence, and in the medium band
the warning is appended exactly when the parsed value is nonzero — a
zero amount in the medium band is present in the result with no
warning. -/
theorem c1_gate_amended (rt : String) (p : OcrParsed) (r : BillScanResult)
    (hlen : 10 ≤ rt.length) (hr : r = scanBill (.picked (.ok rt p))) :
    (∀ v, p.biller_name.value = some v → v ≠ "" →
      ((HIGH_CONFIDENCE ≤ p.biller_name.confidence →
          r.billerName = some v ∧ billerWarning v ∉ r.warnings) ∧
       (LOW_CONFIDENCE ≤ p.biller_name.confidence →
          p.biller_name.confidence < HIGH_CONFIDENCE →
          r.billerName = some v ∧ billerWarning v ∈ r.warnings) ∧
       (p.biller_name.confidence < LOW_CONFIDENCE →
          r.billerName = none ∧ billerWarning v ∉ r.warnings))) ∧
    (∀ v, p.due_date.value = some v → v ≠ "" →
      ((HIGH_CONFIDENCE ≤ p.due_date.confidence →
          r.dueDate = some v ∧ dateWarning ∉ r.warnings) ∧
       (LOW_CONFIDENCE ≤ p.due_date.confidence →
          p.due_date.confidence < HIGH_CONFIDENCE →
          r.dueDate = some v ∧ dateWarning ∈ r.warnings) ∧
       (p.due_date.confidence < LOW_CONFIDENCE →
          r.dueDate = none ∧ dateWarning ∉ r.warnings))) ∧
    (∀ s, p.amount_due.value = some s → s ≠ "" →
      ((jsParseFloat s = none →
          r.amount = none ∧ amountWarning ∉ r.warnings) ∧
       (∀ q, jsParseFloat s = some q →
         ((HIGH_CONFIDENCE ≤ p.amount_due.confidence →
             r.amount = some q ∧ amountWarning ∉ r.warnings) ∧
          (LOW_CONFIDENCE ≤ p.amount_due.confidence →
             p.amount_due.confidence < HIGH_CONFIDENCE → q ≠ 0 →
             r.amount = some q ∧ amountWarning ∈ r.warnings) ∧
          (LOW_CONFIDENCE ≤ p.amount_due.confidence →
             p.amount_due.confidence < HIGH_CONFIDENCE → q = 0 →
             r.amount = some q ∧ amountWarning ∉ r.warnings) ∧
          (p.amount_due.confidence < LOW_CONFIDENCE →
             r.amount = none ∧ amountWarning ∉ r.warnings))))) := by
  subst hr
  rw [scanBill_ok rt p hlen]
  refine ⟨fun v hv hne => ⟨?_, ?_, ?_⟩, fun v hv hne => ⟨?_, ?_, ?_⟩,
    fun s hs hne => ⟨?_, fun q hq => ⟨?_, ?_, ?_, ?_⟩⟩⟩
  · intro hhi
    have hacc : billerAccepted p = true :=
      fieldAccepted_of _ v hv hne (le_trans (by decide) hhi)
    have hmed : billerMedium p = false := fieldMedium_false_high _ hhi
    exact ⟨by simp [processParsed, hacc, hv],
           by simp [processParsed, billerWarning_mem_iff p v hv, hmed]⟩
  · intro hlo hhi
    have hacc : billerAccepted p = true := fieldAccepted_of _ v hv hne hlo
    have hmed : billerMedium p = true := fieldMedium_of _ v hv hne hlo hhi
    exact ⟨by simp [processParsed, hacc, hv],
           by simp [processParsed, billerWarning_mem_iff p v hv, hmed]⟩
  · intro hlo
    have hacc : billerAccepted p = false := fieldAccepted_false _ hlo
    have hmed : billerMedium p = false := fieldMedium_false_low _ hlo
    exact ⟨by simp [processParsed, hacc],
           by simp [processParsed, billerWarning_mem_iff p v hv, hmed]⟩
  · intro hhi
    have hacc : dateAccepted p = true :=
      fieldAccepted_of _ v hv hne (le_trans (by decide) hhi)
    have hmed : dateMedium p = false := fieldMedium_false_high _ hhi
    exact ⟨by simp [processParsed, hacc, hv],
           by simp [processParsed, dateWarning_mem_iff p, hmed]⟩
  · intro hlo hhi
    have hacc : dateAccepted p = true := fieldAccepted_of _ v hv hne hlo
    have hmed : dateMedium p = true := fieldMedium_of _ v hv hne hlo hhi
    exact ⟨by simp [processParsed, hacc, hv],
           by simp [processParsed, dateWarning_mem_iff p, hmed]⟩
  · intro hlo
    have hacc : dateAccepted p = false := fieldAccepted_false _ hlo
    have hmed : dateMedium p = false := fieldMedium_false_low _ hlo
    exact ⟨by simp [processParsed, hacc],
           by simp [processParsed, dateWarning_mem_iff p, hmed]⟩
  · intro hnan
    have hav : amountValue p = none := by simp [amountValue, hs, hnan]
    have hmed : amountMedium p = false := by simp [amountMedium, hav, ratTruthy]
    exact ⟨by simp [processParsed, hav],
           by simp [processParsed, amountWarning_mem_iff p, hmed]⟩
  · intro hhi
    have hacc : amountAccepted p = true :=
      fieldAccepted_of _ s hs hne (le_trans (by decide) hhi)
    have hav : amountValue p = some q := by simp [amountValue, hacc, hs, hq]
    have hmed : amountMedium p = false := by simp [amountMedium, not_lt.mpr hhi]
    exact ⟨by simp [processParsed, hav],
           by simp [processParsed, amountWarning_mem_iff p, hmed]⟩
  · intro hlo hhi hq0
    have hacc : amountAccepted p = true := fieldAccepted_of _ s hs hne hlo
    have hav : amountValue p = some q := by simp [amountValue, hacc, hs, hq]
    have hmed : amountMedium p = true := by
      simp [amountMedium, hav, ratTruthy, hq0, hhi]
    exact ⟨by simp [processParsed, hav],
           by simp [processParsed, amountWarning_mem_iff p, hmed]⟩
  · intro hlo hhi hq0
    subst hq0
    have hacc : amountAccepted p = true := fieldAccepted_of _ s hs hne hlo
    have hav : amountValue p = some 0 := by simp [amountValue, hacc, hs, hq]
    have hmed : amountMedium p = false := by simp [amountMedium, hav, ratTruthy]
    exact ⟨by simp [processParsed, hav],
           by simp [processParsed, amountWarning_mem_iff p, hmed]⟩
  · intro hlo
    have hacc : amountAccepted p = false := fieldAccepted_false _ hlo
    have hav : amountValue p = none := by simp [amountValue, hacc]
    have hmed : amountMedium p = false := by simp [amountMedium, hav, ratTruthy]
    exact ⟨by simp [processParsed, hav],
           by simp [processParsed, amountWarning_mem_iff p, hmed]⟩

/-- C1 (witness): the amended gate theorem at the concrete all-medium
payload: the biller candidate "Aydem" at confidence 0.50 is present and
carries its warning. -/
theorem c1_gate_witness :
    (scanBill (.picked (.ok "0123456789" allMediumParsed))).billerName = some "Aydem" ∧
    billerWarning "Aydem" ∈
      (scanBill (.picked (.ok "0123456789" allMediumParsed))).warnings := by
  have h := c1_gate_amended "0123456789" allMediumParsed
    (scanBill (.picked (.ok "0123456789" allMediumParsed))) (by decide) rfl
  exact (h.1 "Aydem" rfl (by decide)).2.1 (by decide) (by decide)

/-- C6 (counterexample): the claim states warnings are ordered biller,
amount, date.  With all three fields in the medium band the code produces
the biller warning, then the due-date warning, then the amount warning —
the date warning precedes the amount warning. -/
theorem c6_counterexample :
    (scanBill (.picked (.ok "0123456789" allMediumParsed))).warnings =
      [billerWarning "Aydem", dateWarning, amountWarning] ∧
    [billerWarning "Aydem", dateWarning, amountWarning] ≠
      [billerWarning "Aydem", amountWarning, dateWarning] := by decide

/-- C6 (amended): in every successful scan the warnings list is exactly
the biller warning (when its field is medium), then the due-date warning,
then the amount warning — the fixed order is Biller, Date, Amount,
regardless of confidences or content. -/
theorem c6_order_amended (rt : String) (p : OcrParsed) (hlen : 10 ≤ rt.length) :
    (scanBill (.picked (.ok rt p))).warnings =
      (if billerMedium p then [billerWarning (p.biller_name.value.getD "")] else [])
        ++ (if dateMedium p then [dateWarning] else [])
        ++ (if amountMedium p then [amountWarning] else []) := by
  rw [scanBill_ok rt p hlen]; rfl

/-- C6 (witness): the amended order theorem at the concrete all-medium
payload. -/
theorem c6_order_witness :
    (scanBill (.picked (.ok "0123456789" allMediumParsed))).warnings =
      (if billerMedium allMediumParsed then
        [billerWarning (allMediumParsed.biller_name.value.getD "")] else [])
        ++ (if dateMedium allMediumParsed then [dateWarning] else [])
        ++ (if amountMedium allMediumParsed then [amountWarning] else []) :=
  c6_order_amended "0123456789" allMediumParsed (by decide)

/-- C7 (counterexample): the claim states the soft error is absent from
every successful result in which at least one field was accepted.  With
the amount candidate "0" at confidence 0.90 the gate accepts and the
result carries `amount = 0`, yet `hasData` treats the zero amount as
falsy and the soft error message is still emitted. -/
theorem c7_counterexample :
    (scanBill (.picked (.ok "0123456789" zeroAmountParsed))).success = true ∧
    (scanBill (.picked (.ok "0123456789" zeroAmountParsed))).amount = some 0 ∧
    (scanBill (.picked (.ok "0123456789" zeroAmountParsed))).error =
      some "Bilgiler tam çıkarılamadı. Lütfen manuel doldurun." := by decide

/-- C7 (amended): when the recognized text passes the minimum-length
check, the scan succeeds, and the soft manual-entry error message is
present exactly when no biller name was accepted, no due date was
accepted, and the amount local is not truthy (absent, `NaN`, or zero) —
in particular it is emitted even though a zero amount was accepted into
the result. -/
theorem c7_soft_error_amended (rt : String) (p : OcrParsed) (hlen : 10 ≤ rt.length) :
    (scanBill (.picked (.ok rt p))).success = true ∧
    (scanBill (.picked (.ok rt p))).error =
      (if billerAccepted p || dateAccepted p || ratTruthy (amountValue p) then none
       else some "Bilgiler tam çıkarılamadı. Lütfen manuel doldurun.") := by
  rw [scanBill_ok rt p hlen]
  exact ⟨rfl, rfl⟩

/-- C7 (witness): the amended soft-error theorem at the concrete payload
whose only candidate is the amount "0". -/
theorem c7_soft_error_witness :
    (scanBill (.picked (.ok "0123456789" zeroAmountParsed))).success = true ∧
    (scanBill (.picked (.ok "0123456789" zeroAmountParsed))).error =
      (if billerAccepted zeroAmountParsed || dateAccepted zeroAmountParsed ||
          ratTruthy (amountValue zeroAmountParsed) then none
       else some "Bilgiler tam çıkarılamadı. Lütfen manuel doldurun.") :=
  c7_soft_error_amended "0123456789" zeroAmountParsed (by decide)

/-- C10 (counterexample): the claim states the currency is copied
whenever it is non-null.  The code tests JS truthiness, so the non-null
empty-string currency candidate is not copied. -/
theorem c10_counterexample :
    emptyCurrencyParsed.currency.value = some "" ∧
    (scanBill (.picked (.ok "0123456789" emptyCurrencyParsed))).currency = none := by
  decide

/-- C10 (amended): the currency field is exempt from the confidence gate:
it is copied exactly when its candidate is non-null and non-empty, at any
confidence; the warnings list does not depend on the currency field at
all; and the soft manual-entry error condition does not consult the
currency, so it is still emitted when only a currency was found. -/
theorem c10_currency_amended (rt : String) (p : OcrParsed) (c : ParsedField)
    (hlen : 10 ≤ rt.length) :
    (scanBill (.picked (.ok rt p))).currency =
      (if strTruthy p.currency.value then p.currency.value else none) ∧
    (scanBill (.picked (.ok rt { p with currency := c }))).warnings =
      (scanBill (.picked (.ok rt p))).warnings ∧
    (scanBill (.picked (.ok rt p))).error =
      (if billerAccepted p || dateAccepted p || ratTruthy (amountValue p) then none
       else some "Bilgiler tam çıkarılamadı. Lütfen manuel doldurun.") := by
  rw [scanBill_ok rt p hlen, scanBill_ok rt { p with currency := c } hlen]
  exact ⟨rfl, rfl, rfl⟩

/-- C10 (witness): the amended currency theorem at the concrete payload
whose only candidate is an empty-string currency, replacing it with a
full-confidence dollar currency for the independence conjunct. -/
theorem c10_currency_witness :
    (scanBill (.picked (.ok "0123456789" emptyCurrencyParsed))).currency =
      (if strTruthy emptyCurrencyParsed.currency.value then
        emptyCurrencyParsed.currency.value else none) ∧
    (scanBill (.picked (.ok "0123456789"
        { emptyCurrencyParsed with currency := ⟨some "USD", 1, []⟩ }))).warnings =
      (scanBill (.picked (.ok "0123456789" emptyCurrencyParsed))).warnings ∧
    (scanBill (.picked (.ok "0123456789" emptyCurrencyParsed))).error =
      (if billerAccepted emptyCurrencyParsed || dateAccepted emptyCurrencyParsed ||
          ratTruthy (amountValue emptyCurrencyParsed) then none
       else some "Bilgiler tam çıkarılamadı. Lütfen manuel doldurun.") :=
  c10_currency_amended "0123456789" emptyCurrencyParsed ⟨some "USD", 1, []⟩ (by decide)
